import Mathlib

/-!
Verification of the security-artifact directory resolver and the event
wrapper of this repository.

The repository ships `src/rcl/src/rcl/event.c` (embedded directly below in
the `Event` section) and the test suite of the security directory resolver
(`src/rcl/test/rcl/test_security_directory.cpp`).  The resolver itself
(`rcl_get_secure_root`, declared in `rcl/security_directory.h`) is not part
of the shipped sources, so it is modelled from the specification: the
filesystem and the three environment configuration values are explicit
inputs, and the resolver is a pure function of them.
-/

/-- Modelled from the spec: the match policy of `rcl_get_secure_root`
(`MatchPolicy`, §3), an enumeration with the two values Exact and Prefix. -/
inductive MatchPolicy where
  | exactPolicy
  | prefixPolicy
deriving DecidableEq, Repr

/-- Character-level test that `a` is a prefix of `b`, the comparison the C
source performs with `strncmp(b, a, strlen(a)) == 0`. -/
def isPathPrefixOf (a b : String) : Bool :=
  a.data.isPrefixOf b.data

/-- Modelled from the spec: parsing of the lookup-type environment value
(§3, §6): `MATCH_PREFIX` selects the Prefix policy; an absent or any other
value (including `MATCH_EXACT`) yields the default Exact policy. -/
def parseLookupType : Option String → MatchPolicy
  | some s => if s = "MATCH_PREFIX" then .prefixPolicy else .exactPolicy
  | none => .exactPolicy

/-- Modelled from the spec: the three optional environment-provided
configuration values of the resolver (`ResolverConfig`, §3). -/
structure ResolverConfig where
  rootDirectory : Option String
  nodeDirectoryOverride : Option String
  lookupType : Option String
deriving DecidableEq, Repr

/-- A point-in-time snapshot of the filesystem as the resolver observes it:
the list of paths that exist and are directories.  The list order is the
(deterministic) enumeration order of directory entries. -/
structure Fs where
  dirs : List String
deriving DecidableEq, Repr

/-- Path join with the platform separator, the `rcutils_join_path`
primitive of the surrounding codebase. -/
def joinPath (a b : String) : String :=
  a ++ "/" ++ b

/-- A path exists and is a directory in the snapshot. -/
def Fs.isDir (fs : Fs) (p : String) : Bool :=
  fs.dirs.contains p

/-- Names of the immediate (non-recursive) child directories of `base`:
those `c` without a separator such that `base/c` is a directory, in
snapshot enumeration order. -/
def Fs.childDirs (fs : Fs) (base : String) : List String :=
  fs.dirs.filterMap (fun p =>
    let pre := (base ++ "/").data
    if pre.isPrefixOf p.data then
      let rest := p.data.drop pre.length
      if rest.isEmpty || rest.contains '/' then none else some (String.mk rest)
    else none)

/-- Modelled from the spec: the match policy applied to a child directory
name `c` against the identity's short name (§4.1 Step 3): Exact matches iff
`c == name`; Prefix matches iff `c` is a (character-level) prefix of
`name`. -/
def matchesName : MatchPolicy → String → String → Bool
  | .exactPolicy, name, c => c == name
  | .prefixPolicy, name, c => isPathPrefixOf c name

/-- Modelled from the spec: the namespace with its leading separator
stripped (§4.1 Step 2). -/
def stripLeadingSep (ns : String) : String :=
  if isPathPrefixOf "/" ns then ns.drop 1 else ns

/-- Modelled from the spec: the lookup base (§4.1 Step 2): `RootDirectory`
itself for the root namespace, otherwise `RootDirectory` joined with the
namespace with its leading separator stripped. -/
def lookupBase (root ns : String) : String :=
  if ns = "/" then root else joinPath root (stripLeadingSep ns)

/-- The error taxonomy of the resolver (spec §7). -/
inductive ResolveErr where
  | configurationMissing
  | overrideInvalid
  | baseNotFound
  | noMatch
  | allocationFailure
deriving DecidableEq, Repr

/-- Modelled from the spec: `rcl_get_secure_root` (declared in
`rcl/security_directory.h`, implementation not under the shipped sources),
instrumented with the error taxonomy of §7.  `allocOk` models whether the
caller-supplied allocator can produce storage for the result path.  When
several children match (possible under the Prefix policy) the winner is the
first match in snapshot enumeration order, a deterministic tie-break as
required by §4.1 Step 4. -/
def getSecureRootE (fs : Fs) (cfg : ResolverConfig) (allocOk : Bool)
    (name ns : String) : Except ResolveErr String :=
  match cfg.nodeDirectoryOverride with
  | some ov =>
    if fs.isDir ov then
      if allocOk then .ok ov else .error .allocationFailure
    else .error .overrideInvalid
  | none =>
    match cfg.rootDirectory with
    | none => .error .configurationMissing
    | some root =>
      let base := lookupBase root ns
      if fs.isDir base then
        match (fs.childDirs base).filter
            (matchesName (parseLookupType cfg.lookupType) name) with
        | [] => .error .noMatch
        | c :: _ =>
          if allocOk then .ok (joinPath base c) else .error .allocationFailure
      else .error .baseNotFound

/-- The caller-visible result of `rcl_get_secure_root` for a given
allocator outcome: an owned path, or null on every failure. -/
def getSecureRootAlloc (fs : Fs) (cfg : ResolverConfig) (allocOk : Bool)
    (name ns : String) : Option String :=
  (getSecureRootE fs cfg allocOk name ns).toOption

/-- Modelled from the spec: the function-level boundary
`Resolve(name, namespace, allocator) -> (path | null)` (§6), with a
functioning allocator. -/
def rcl_get_secure_root (fs : Fs) (cfg : ResolverConfig)
    (name ns : String) : Option String :=
  getSecureRootAlloc fs cfg true name ns

/-- The reference fixture of §8: root directory `R` with child directory
`dummy_node` under `R/test_security_directory`. -/
def fixtureFs : Fs :=
  ⟨["R", "R/test_security_directory", "R/test_security_directory/dummy_node"]⟩

example : rcl_get_secure_root fixtureFs ⟨some "R", none, none⟩
    "dummy_node" "/test_security_directory"
    = some "R/test_security_directory/dummy_node" := by decide

example : rcl_get_secure_root fixtureFs ⟨some "R", none, none⟩
    "dummy_node_and_some_suffix_added" "/test_security_directory"
    = none := by decide

example : rcl_get_secure_root fixtureFs ⟨some "R", none, some "MATCH_PREFIX"⟩
    "dummy_node_and_some_suffix_added" "/test_security_directory"
    = some "R/test_security_directory/dummy_node" := by decide

/-! ### Embedding of `src/rcl/src/rcl/event.c` -/

/-- `RCL_RET_OK` of `rcl/types.h`. -/
def RCL_RET_OK : Nat := 0

/-- `RCL_RET_ERROR` of `rcl/types.h`. -/
def RCL_RET_ERROR : Nat := 1

/-- `RCL_RET_BAD_ALLOC` of `rcl/types.h`. -/
def RCL_RET_BAD_ALLOC : Nat := 10

/-- `RCL_RET_INVALID_ARGUMENT` of `rcl/types.h`. -/
def RCL_RET_INVALID_ARGUMENT : Nat := 11

/-- `RMW_RET_OK` of `rmw/types.h`. -/
def RMW_RET_OK : Nat := 0

/-- `RMW_RET_BAD_ALLOC` of `rmw/types.h`. -/
def RMW_RET_BAD_ALLOC : Nat := 10

/-- `RMW_RET_INVALID_ARGUMENT` of `rmw/types.h`. -/
def RMW_RET_INVALID_ARGUMENT : Nat := 11

/-- `RCL_PUBLISHER_OFFERED_DEADLINE_MISSED`, first enumerator of
`rcl_publisher_event_type_t` (C default numbering). -/
def RCL_PUBLISHER_OFFERED_DEADLINE_MISSED : Nat := 0

/-- `RCL_PUBLISHER_LIVELINESS_LOST`, second enumerator of
`rcl_publisher_event_type_t`. -/
def RCL_PUBLISHER_LIVELINESS_LOST : Nat := 1

/-- `RCL_SUBSCRIPTION_REQUESTED_DEADLINE_MISSED`, first enumerator of
`rcl_subscription_event_type_t`. -/
def RCL_SUBSCRIPTION_REQUESTED_DEADLINE_MISSED : Nat := 0

/-- `RCL_SUBSCRIPTION_LIVELINESS_CHANGED`, second enumerator of
`rcl_subscription_event_type_t`. -/
def RCL_SUBSCRIPTION_LIVELINESS_CHANGED : Nat := 1

/-- `rmw_event_type_t` of `rmw/event.h`: the middleware-level event kinds
plus the `RMW_EVENT_INVALID` sentinel. -/
inductive RmwEventType where
  | invalid
  | offeredDeadlineMissed
  | livelinessLost
  | requestedDeadlineMissed
  | livelinessChanged
deriving DecidableEq, Repr

/-- `rcl_event_impl_t` (event.c lines 36-39): a single field holding the
pointer to the middleware event.  A pointer is modelled by its value as an
`Option Nat`; `none` is NULL or a never-assigned handle. -/
structure rcl_event_impl_t where
  rmw_handle : Option Nat
deriving DecidableEq, Repr

/-- `rcl_event_t`: the public event object, holding a possibly-NULL pointer
to its implementation struct, modelled by the struct's value. -/
structure rcl_event_t where
  impl : Option rcl_event_impl_t
deriving DecidableEq, Repr

/-- `rcl_get_zero_initialized_event` (event.c lines 42-47). -/
def rcl_get_zero_initialized_event : rcl_event_t :=
  { impl := none }

/-- The `switch (event_type)` of `rcl_publisher_event_init` (event.c lines
67-77): the two supported publisher event types map to their middleware
kind; any other value leaves `RMW_EVENT_INVALID`, modelled as `none`. -/
def rmwEventTypeOfPub (event_type : Nat) : Option RmwEventType :=
  if event_type = RCL_PUBLISHER_OFFERED_DEADLINE_MISSED then
    some .offeredDeadlineMissed
  else if event_type = RCL_PUBLISHER_LIVELINESS_LOST then
    some .livelinessLost
  else
    none

/-- The `switch (event_type)` of `rcl_subscription_event_init` (event.c
lines 102-112). -/
def rmwEventTypeOfSub (event_type : Nat) : Option RmwEventType :=
  if event_type = RCL_SUBSCRIPTION_REQUESTED_DEADLINE_MISSED then
    some .requestedDeadlineMissed
  else if event_type = RCL_SUBSCRIPTION_LIVELINESS_CHANGED then
    some .livelinessChanged
  else
    none

/-- `rcl_publisher_event_init` (event.c lines 49-82).  `allocValid` models
the `RCL_CHECK_ALLOCATOR_WITH_MSG` check; `allocOk` models whether
`allocator->allocate` returns non-NULL; `rmwCreate` models
`rmw_create_publisher_event`, returning the (possibly NULL) handle.  The
result is the returned `rcl_ret_t` code and the event object after the
call. -/
def rcl_publisher_event_init (allocValid allocOk : Bool)
    (rmwCreate : RmwEventType → Option Nat)
    (event : rcl_event_t) (event_type : Nat) : Nat × rcl_event_t :=
  if !allocValid then
    (RCL_RET_INVALID_ARGUMENT, event)
  else if !allocOk then
    (RCL_RET_BAD_ALLOC, { event with impl := none })
  else
    let afterAlloc : rcl_event_t := { event with impl := some { rmw_handle := none } }
    match rmwEventTypeOfPub event_type with
    | none => (RCL_RET_INVALID_ARGUMENT, afterAlloc)
    | some t =>
      (RCL_RET_OK, { afterAlloc with impl := some { rmw_handle := rmwCreate t } })

/-- `rcl_subscription_event_init` (event.c lines 84-118), modelled exactly
as `rcl_publisher_event_init` with the subscription event-type switch and
`rmw_create_subscription_event`. -/
def rcl_subscription_event_init (allocValid allocOk : Bool)
    (rmwCreate : RmwEventType → Option Nat)
    (event : rcl_event_t) (event_type : Nat) : Nat × rcl_event_t :=
  if !allocValid then
    (RCL_RET_INVALID_ARGUMENT, event)
  else if !allocOk then
    (RCL_RET_BAD_ALLOC, { event with impl := none })
  else
    let afterAlloc : rcl_event_t := { event with impl := some { rmw_handle := none } }
    match rmwEventTypeOfSub event_type with
    | none => (RCL_RET_INVALID_ARGUMENT, afterAlloc)
    | some t =>
      (RCL_RET_OK, { afterAlloc with impl := some { rmw_handle := rmwCreate t } })

/-- `rcl_convert_rmw_ret_to_rcl_ret` (`rcl/src/rcl/common.c`, not under the
shipped sources): maps the middleware return code to the corresponding rcl
return code, preserving OK, BAD_ALLOC and INVALID_ARGUMENT and collapsing
any other failure to `RCL_RET_ERROR`. -/
def rcl_convert_rmw_ret_to_rcl_ret (rmw_ret : Nat) : Nat :=
  if rmw_ret = RMW_RET_OK then RCL_RET_OK
  else if rmw_ret = RMW_RET_BAD_ALLOC then RCL_RET_BAD_ALLOC
  else if rmw_ret = RMW_RET_INVALID_ARGUMENT then RCL_RET_INVALID_ARGUMENT
  else RCL_RET_ERROR

/-- `rcl_event_fini` (event.c lines 141-147): destroy the middleware event
(`rmwDestroyRet` is the code `rmw_destroy_event` returns), set
`event->impl` to NULL, and return the converted code. -/
def rcl_event_fini (rmwDestroyRet : Nat) (event : rcl_event_t) : Nat × rcl_event_t :=
  (rcl_convert_rmw_ret_to_rcl_ret rmwDestroyRet, { event with impl := none })

/-! ### Claims about the resolver -/

/-- Claim C1: for every identity, if the node directory override is set to
a path that exists and is a directory, the resolver returns Found with
exactly that override path verbatim, ignoring the name, the namespace, the
root directory and the match policy. -/
theorem C1_override_short_circuit (fs : Fs) (rd lt : Option String)
    (name ns ov : String) (hdir : fs.isDir ov = true) :
    rcl_get_secure_root fs ⟨rd, some ov, lt⟩ name ns = some ov := by
  simp [rcl_get_secure_root, getSecureRootAlloc, getSecureRootE, hdir,
    Except.toOption]

theorem C1_override_short_circuit_witness :
    fixtureFs.isDir "R" = true ∧
      rcl_get_secure_root fixtureFs ⟨some "R", some "R", some "MATCH_PREFIX"⟩
        "any_name" "/any/ns" = some "R" :=
  ⟨by decide,
    C1_override_short_circuit fixtureFs (some "R") (some "MATCH_PREFIX")
      "any_name" "/any/ns" "R" (by decide)⟩

/-- Claim C2: if the node directory override is set but is not an existing
directory, the resolver returns NotFound for every identity, even when the
root directory is set and its search would have matched: it never falls
back from an invalid override to the root-directory search. -/
theorem C2_override_invalid_no_fallback (fs : Fs) (rd lt : Option String)
    (name ns ov : String) (hdir : fs.isDir ov = false) :
    rcl_get_secure_root fs ⟨rd, some ov, lt⟩ name ns = none := by
  simp [rcl_get_secure_root, getSecureRootAlloc, getSecureRootE, hdir,
    Except.toOption]

theorem C2_override_invalid_no_fallback_witness :
    fixtureFs.isDir "TheresN_oWayThi_sDirectory_Exists" = false ∧
      rcl_get_secure_root fixtureFs ⟨some "R", none, none⟩
        "dummy_node" "/test_security_directory"
        = some "R/test_security_directory/dummy_node" ∧
      rcl_get_secure_root fixtureFs
        ⟨some "R", some "TheresN_oWayThi_sDirectory_Exists", none⟩
        "dummy_node" "/test_security_directory" = none :=
  ⟨by decide, by decide,
    C2_override_invalid_no_fallback fixtureFs (some "R") none
      "dummy_node" "/test_security_directory"
      "TheresN_oWayThi_sDirectory_Exists" (by decide)⟩

/-- Two root-directory searches with the same lookup base resolve
identically: the root and namespace enter the search only through
`lookupBase`. -/
theorem getSecureRoot_base_congr (fs : Fs) (lt : Option String)
    (name root1 ns1 root2 ns2 : String)
    (h : lookupBase root1 ns1 = lookupBase root2 ns2) :
    rcl_get_secure_root fs ⟨some root1, none, lt⟩ name ns1
      = rcl_get_secure_root fs ⟨some root2, none, lt⟩ name ns2 := by
  simp only [rcl_get_secure_root, getSecureRootAlloc, getSecureRootE]
  rw [h]

/-- Claim C3: with no override, the lookup base is the root directory
itself for the root namespace, and otherwise the root joined with the
namespace minus its leading separator; resolving under namespace `ns`
against root `R` equals resolving under the root namespace against root
`R/ns`. -/
theorem C3_lookup_base_namespace (fs : Fs) (lt : Option String)
    (root ns name : String) (hne : ns ≠ "/")
    (hsep : isPathPrefixOf "/" ns = true) :
    lookupBase root "/" = root ∧
    lookupBase root ns = joinPath root (ns.drop 1) ∧
    rcl_get_secure_root fs ⟨some root, none, lt⟩ name ns
      = rcl_get_secure_root fs ⟨some (joinPath root (ns.drop 1)), none, lt⟩
          name "/" := by
  have h2 : lookupBase root ns = joinPath root (ns.drop 1) := by
    simp [lookupBase, stripLeadingSep, hne, hsep]
  refine ⟨by simp [lookupBase], h2, ?_⟩
  apply getSecureRoot_base_congr
  rw [h2]
  simp [lookupBase]

theorem C3_lookup_base_namespace_witness :
    ("/test_security_directory" ≠ "/") ∧
    isPathPrefixOf "/" "/test_security_directory" = true ∧
    (lookupBase "R" "/" = "R" ∧
     lookupBase "R" "/test_security_directory"
       = joinPath "R" (String.drop "/test_security_directory" 1) ∧
     rcl_get_secure_root fixtureFs ⟨some "R", none, none⟩
         "dummy_node" "/test_security_directory"
       = rcl_get_secure_root fixtureFs
           ⟨some (joinPath "R" (String.drop "/test_security_directory" 1)),
            none, none⟩ "dummy_node" "/") :=
  ⟨by decide, by decide,
    C3_lookup_base_namespace fixtureFs none "R" "/test_security_directory"
      "dummy_node" (by decide) (by decide)⟩

/-- Claim C4: under the Exact policy — also the policy selected when the
lookup-type value is absent or unrecognized — a child matches iff its name
equals the identity's name exactly; in the reference fixture a child named
`Name` is found and a child named `Name` plus a suffix is not. -/
theorem C4_exact_policy_default :
    (∀ name c, matchesName .exactPolicy name c = true ↔ c = name) ∧
    parseLookupType none = .exactPolicy ∧
    (∀ s, s ≠ "MATCH_PREFIX" → parseLookupType (some s) = .exactPolicy) ∧
    rcl_get_secure_root fixtureFs ⟨some "R", none, none⟩
        "dummy_node" "/test_security_directory"
      = some "R/test_security_directory/dummy_node" ∧
    rcl_get_secure_root fixtureFs ⟨some "R", none, none⟩
        "dummy_node_and_some_suffix_added" "/test_security_directory"
      = none := by
  refine ⟨fun name c => ?_, rfl, fun s hs => ?_, by decide, by decide⟩
  · simp [matchesName]
  · simp [parseLookupType, hs]

theorem C4_exact_policy_default_witness :
    ("MATCH_EXACT" ≠ "MATCH_PREFIX") ∧
    parseLookupType (some "MATCH_EXACT") = MatchPolicy.exactPolicy :=
  ⟨by decide, C4_exact_policy_default.2.2.1 "MATCH_EXACT" (by decide)⟩

/-- Claim C5: under the Prefix policy a child `c` matches iff `c` is a
prefix of the identity's name (some suffix extends `c` to the name); in
the reference fixture the child `dummy_node` matches the name
`dummy_node_and_some_suffix_added` and the resolver returns the path
ending in `dummy_node`. -/
theorem C5_prefix_policy :
    (∀ name c, matchesName .prefixPolicy name c = true
      ↔ ∃ t, c.data ++ t = name.data) ∧
    matchesName .prefixPolicy "dummy_node_and_some_suffix_added" "dummy_node"
      = true ∧
    rcl_get_secure_root fixtureFs ⟨some "R", none, some "MATCH_PREFIX"⟩
        "dummy_node_and_some_suffix_added" "/test_security_directory"
      = some "R/test_security_directory/dummy_node" := by
  refine ⟨fun name c => ?_, by decide, by decide⟩
  rw [show matchesName .prefixPolicy name c = c.data.isPrefixOf name.data
    from rfl]
  rw [List.isPrefixOf_iff_prefix]
  exact Iff.rfl

/-- Claim C6: when neither the override nor the root directory is set, the
resolver returns NotFound immediately for every identity: the outcome is
the ConfigurationMissing failure, before any lookup-base construction or
candidate scan. -/
theorem C6_no_configuration (fs : Fs) (lt : Option String) (ok : Bool)
    (name ns : String) :
    rcl_get_secure_root fs ⟨none, none, lt⟩ name ns = none ∧
    getSecureRootE fs ⟨none, none, lt⟩ ok name ns
      = .error .configurationMissing :=
  ⟨rfl, rfl⟩

/-- Claim C7: every failure kind of the taxonomy is reported to the caller
through the same null result — the distinguishing error kind never reaches
the return value — and each of the five kinds is reachable. -/
theorem C7_failures_collapse (e : ResolveErr) :
    (∀ (fs : Fs) (cfg : ResolverConfig) (ok : Bool) (name ns : String),
      getSecureRootE fs cfg ok name ns = .error e
        → getSecureRootAlloc fs cfg ok name ns = none) ∧
    (getSecureRootE fixtureFs ⟨none, none, none⟩ true "n" "/"
        = .error .configurationMissing ∧
      getSecureRootAlloc fixtureFs ⟨none, none, none⟩ true "n" "/" = none) ∧
    (getSecureRootE fixtureFs ⟨some "R", some "bad", none⟩ true "dummy_node"
        "/test_security_directory" = .error .overrideInvalid ∧
      getSecureRootAlloc fixtureFs ⟨some "R", some "bad", none⟩ true
        "dummy_node" "/test_security_directory" = none) ∧
    (getSecureRootE fixtureFs ⟨some "R", none, none⟩ true "dummy_node"
        "/absent_namespace" = .error .baseNotFound ∧
      getSecureRootAlloc fixtureFs ⟨some "R", none, none⟩ true "dummy_node"
        "/absent_namespace" = none) ∧
    (getSecureRootE fixtureFs ⟨some "R", none, none⟩ true "other_node"
        "/test_security_directory" = .error .noMatch ∧
      getSecureRootAlloc fixtureFs ⟨some "R", none, none⟩ true "other_node"
        "/test_security_directory" = none) ∧
    (getSecureRootE fixtureFs ⟨some "R", none, none⟩ false "dummy_node"
        "/test_security_directory" = .error .allocationFailure ∧
      getSecureRootAlloc fixtureFs ⟨some "R", none, none⟩ false "dummy_node"
        "/test_security_directory" = none) := by
  refine ⟨fun fs cfg ok name ns h => ?_, ⟨rfl, rfl⟩, ⟨rfl, rfl⟩, ⟨rfl, rfl⟩,
    ⟨rfl, rfl⟩, ⟨rfl, rfl⟩⟩
  simp [getSecureRootAlloc, h, Except.toOption]

theorem C7_failures_collapse_witness :
    getSecureRootE fixtureFs ⟨none, none, some "MATCH_PREFIX"⟩ true "x" "/y"
      = .error .configurationMissing ∧
    getSecureRootAlloc fixtureFs ⟨none, none, some "MATCH_PREFIX"⟩ true "x" "/y"
      = none :=
  ⟨rfl,
    (C7_failures_collapse .configurationMissing).1 fixtureFs
      ⟨none, none, some "MATCH_PREFIX"⟩ true "x" "/y" rfl⟩

/-- Claim C8: the resolver is deterministic — equal identity, equal
configuration and equal directory contents give identical results — and
with several valid Prefix matches the same input always produces the same
single winner (in the model, the first match in snapshot enumeration
order). -/
theorem C8_deterministic (fs1 fs2 : Fs) (cfg1 cfg2 : ResolverConfig)
    (n1 n2 ns1 ns2 : String) (hfs : fs1 = fs2) (hcfg : cfg1 = cfg2)
    (hn : n1 = n2) (hns : ns1 = ns2) :
    rcl_get_secure_root fs1 cfg1 n1 ns1 = rcl_get_secure_root fs2 cfg2 n2 ns2 ∧
    rcl_get_secure_root ⟨["R", "R/ns", "R/ns/dum", "R/ns/dummy"]⟩
        ⟨some "R", none, some "MATCH_PREFIX"⟩ "dummy_node" "/ns"
      = some "R/ns/dum" := by
  subst hfs hcfg hn hns
  exact ⟨rfl, by decide⟩

theorem C8_deterministic_witness :
    rcl_get_secure_root fixtureFs ⟨some "R", none, none⟩ "dummy_node"
        "/test_security_directory"
      = rcl_get_secure_root fixtureFs ⟨some "R", none, none⟩ "dummy_node"
        "/test_security_directory" ∧
    rcl_get_secure_root ⟨["R", "R/ns", "R/ns/dum", "R/ns/dummy"]⟩
        ⟨some "R", none, some "MATCH_PREFIX"⟩ "dummy_node" "/ns"
      = some "R/ns/dum" :=
  C8_deterministic fixtureFs fixtureFs ⟨some "R", none, none⟩
    ⟨some "R", none, none⟩ "dummy_node" "dummy_node"
    "/test_security_directory" "/test_security_directory" rfl rfl rfl rfl

/-! ### Claims about the event wrapper -/

/-- Claim C9: for any event type other than the two supported publisher
(resp. subscription) event types, the init function returns
`RCL_RET_INVALID_ARGUMENT`, but only after having already overwritten
`event->impl` with a freshly allocated implementation struct whose
`rmw_handle` is never set: the event object is not left unchanged. -/
theorem C9_event_init_invalid_type (rmwCreate : RmwEventType → Option Nat)
    (ev : rcl_event_t) (t : Nat)
    (h1 : t ≠ RCL_PUBLISHER_OFFERED_DEADLINE_MISSED)
    (h2 : t ≠ RCL_PUBLISHER_LIVELINESS_LOST)
    (h3 : t ≠ RCL_SUBSCRIPTION_REQUESTED_DEADLINE_MISSED)
    (h4 : t ≠ RCL_SUBSCRIPTION_LIVELINESS_CHANGED) :
    rcl_publisher_event_init true true rmwCreate ev t
      = (RCL_RET_INVALID_ARGUMENT, { impl := some { rmw_handle := none } }) ∧
    rcl_subscription_event_init true true rmwCreate ev t
      = (RCL_RET_INVALID_ARGUMENT, { impl := some { rmw_handle := none } }) := by
  constructor
  · simp [rcl_publisher_event_init, rmwEventTypeOfPub, h1, h2]
  · simp [rcl_subscription_event_init, rmwEventTypeOfSub, h3, h4]

theorem C9_event_init_invalid_type_witness :
    ((7 : Nat) ≠ RCL_PUBLISHER_OFFERED_DEADLINE_MISSED) ∧
    ((7 : Nat) ≠ RCL_PUBLISHER_LIVELINESS_LOST) ∧
    ((7 : Nat) ≠ RCL_SUBSCRIPTION_REQUESTED_DEADLINE_MISSED) ∧
    ((7 : Nat) ≠ RCL_SUBSCRIPTION_LIVELINESS_CHANGED) ∧
    rcl_publisher_event_init true true (fun _ => none)
        rcl_get_zero_initialized_event 7
      = (RCL_RET_INVALID_ARGUMENT, { impl := some { rmw_handle := none } }) ∧
    rcl_subscription_event_init true true (fun _ => none)
        rcl_get_zero_initialized_event 7
      = (RCL_RET_INVALID_ARGUMENT, { impl := some { rmw_handle := none } }) :=
  ⟨by decide, by decide, by decide, by decide,
    (C9_event_init_invalid_type (fun _ => none) rcl_get_zero_initialized_event
      7 (by decide) (by decide) (by decide) (by decide)).1,
    (C9_event_init_invalid_type (fun _ => none) rcl_get_zero_initialized_event
      7 (by decide) (by decide) (by decide) (by decide)).2⟩

/-- Claim C10: after any call to `rcl_event_fini`, `event->impl` is NULL
regardless of whether the middleware destroy succeeded, and when the
destroy failed the function still returns a non-OK code with the handle
already cleared. -/
theorem C10_event_fini_clears_impl (r : Nat) (ev : rcl_event_t) :
    (rcl_event_fini r ev).2.impl = none ∧
    (r ≠ RMW_RET_OK → (rcl_event_fini r ev).1 ≠ RCL_RET_OK) := by
  refine ⟨rfl, fun hr => ?_⟩
  simp only [rcl_event_fini, rcl_convert_rmw_ret_to_rcl_ret, RMW_RET_OK,
    RMW_RET_BAD_ALLOC, RMW_RET_INVALID_ARGUMENT, RCL_RET_OK,
    RCL_RET_BAD_ALLOC, RCL_RET_INVALID_ARGUMENT, RCL_RET_ERROR] at hr ⊢
  split_ifs <;> simp_all

theorem C10_event_fini_clears_impl_witness :
    ((1 : Nat) ≠ RMW_RET_OK) ∧
    (rcl_event_fini 1 { impl := some { rmw_handle := some 5 } }).2.impl
      = none ∧
    (rcl_event_fini 1 { impl := some { rmw_handle := some 5 } }).1
      ≠ RCL_RET_OK :=
  ⟨by decide,
    (C10_event_fini_clears_impl 1 { impl := some { rmw_handle := some 5 } }).1,
    (C10_event_fini_clears_impl 1
      { impl := some { rmw_handle := some 5 } }).2 (by decide)⟩
